import Mathlib

/-!
# Verification of the MMA8451Q driver layer (`Sources/inertial/mma8451q.c`)

Shallow embedding of the register-mapped driver for the MMA8451Q
accelerometer.  Device registers are modelled as a byte-valued register
file `Regs : Nat → Nat`; every bus primitive both transforms the register
file and records the bus transaction it performs, so that properties about
*which* transactions an operation issues (burst reads, full overwrites,
read-modify-writes) are provable alongside properties about the resulting
register contents.  Machine bytes are `Nat` with explicit `% 256`
truncation at the points where C converts to `uint8_t`; the signed 16-bit
sample values are `Int` obtained through an explicit two's-complement
interpretation.
-/

/-- A device register file: the byte content stored at each register
address. -/
def Regs : Type := Nat → Nat

/-- One transaction on the I2C bus, as issued by the driver through the
bus-transaction provider. -/
inductive I2CEvent where
  | readReg (dev reg : Nat)
  | readBurst (dev startReg count : Nat)
  | writeReg (dev reg value : Nat)
  | modifyReg (dev reg andMask orMask : Nat)
deriving DecidableEq, Repr

/-- Modelled from the spec: the bus provider's single-register write
(`writeRegister(deviceAddr, regAddr, byte)`, §6).  The i2c implementation
itself is not under `src/`; per the spec it stores the byte into the
addressed register in one transaction.  The value is truncated to a byte
as by the `uint8_t` parameter type. -/
def I2C_WriteRegister (dev reg value : Nat) (regs : Regs) : Regs × List I2CEvent :=
  (fun a => if a = reg then value % 256 else regs a,
   [I2CEvent.writeReg dev reg (value % 256)])

/-- Modelled from the spec: the bus provider's atomic read-mask-write
(`modifyRegister(deviceAddr, regAddr, clearMask, setMask)`, §6, §4.3):
read the current register value, AND it with `andMask`, OR in `orMask`,
write back, as one indivisible transaction.  Masks are truncated to bytes
as by the `uint8_t` parameter type. -/
def I2C_ModifyRegister (dev reg andMask orMask : Nat) (regs : Regs) : Regs × List I2CEvent :=
  (fun a => if a = reg then ((regs reg &&& (andMask % 256)) ||| (orMask % 256)) % 256 else regs a,
   [I2CEvent.modifyReg dev reg (andMask % 256) (orMask % 256)])

/-- Modelled from the spec: the bus provider's burst read
(`readBurst(deviceAddr, startRegAddr, count)`, §6): one transaction
returning the bytes of `count` consecutive registers starting at
`startReg`. -/
def I2C_ReadRegisters (dev startReg count : Nat) (regs : Regs) : List Nat × List I2CEvent :=
  ((List.range count).map (fun i => regs (startReg + i) % 256),
   [I2CEvent.readBurst dev startReg count])

/-- Modelled from the spec: identity AND mask of the bus provider's modify
primitive (`I2C_MOD_NO_AND_MASK` in the i2c header, not under `src/`):
ANDing a byte with `0xFF` changes nothing. -/
def I2C_MOD_NO_AND_MASK : Nat := 0xFF

/-- Modelled from the spec: identity OR mask of the bus provider's modify
primitive (`I2C_MOD_NO_OR_MASK`): ORing `0x00` changes nothing. -/
def I2C_MOD_NO_OR_MASK : Nat := 0x00

/-- Modelled from the spec: the MMA8451Q's fixed 7-bit bus address
(`MMA8451Q_I2CADDR`; the device header is not under `src/`). -/
def MMA8451Q_I2CADDR : Nat := 0x1D

/-- Modelled from the spec: address of the STATUS register (start of the
status + sample-data run read by the burst). -/
def MMA8451Q_REG_STATUS : Nat := 0x00

/-- Modelled from the spec: address of the XYZ_DATA_CFG register
(sensitivity / high-pass configuration).  The source spells the symbol
`MMA8451Q_REG_XZY_DATA_CFG`. -/
def MMA8451Q_REG_XZY_DATA_CFG : Nat := 0x0E

/-- Modelled from the spec: address of CTRL_REG1 (data rate / low noise /
active mode). -/
def MMA8451Q_REG_CTRL_REG1 : Nat := 0x2A

/-- Modelled from the spec: address of CTRL_REG2 (oversampling modes). -/
def MMA8451Q_REG_CTRL_REG2 : Nat := 0x2B

/-- Modelled from the spec: address of CTRL_REG3 (interrupt polarity and
pin drive mode). -/
def MMA8451Q_REG_CTRL_REG3 : Nat := 0x2C

/-- Modelled from the spec: address of CTRL_REG4 (interrupt enable). -/
def MMA8451Q_REG_CTRL_REG4 : Nat := 0x2D

/-- Modelled from the spec: address of CTRL_REG5 (interrupt routing). -/
def MMA8451Q_REG_CTRL_REG5 : Nat := 0x2E

/-- `#define CTRL_REG1_DR_MASK 0x38` from `mma8451q.c`. -/
def CTRL_REG1_DR_MASK : Nat := 0x38

/-- `#define CTRL_REG1_DR_SHIFT 0x3` from `mma8451q.c`. -/
def CTRL_REG1_DR_SHIFT : Nat := 0x3

/-- `#define CTRL_REG1_LNOISE_MASK 0x4` from `mma8451q.c`. -/
def CTRL_REG1_LNOISE_MASK : Nat := 0x4

/-- `#define CTRL_REG1_LNOISE_SHIFT 0x2` from `mma8451q.c`. -/
def CTRL_REG1_LNOISE_SHIFT : Nat := 0x2

/-- `#define CTRL_REG2_MODS_MASK 0x38` from `mma8451q.c`. -/
def CTRL_REG2_MODS_MASK : Nat := 0x38

/-- `#define CTRL_REG2_MODS_SHIFT 0x3` from `mma8451q.c`. -/
def CTRL_REG2_MODS_SHIFT : Nat := 0x3

/-- `#define CTRL_REG3_IPOL_MASK 0x2` from `mma8451q.c`. -/
def CTRL_REG3_IPOL_MASK : Nat := 0x2

/-- `#define CTRL_REG3_IPOL_SHIFT 0x1` from `mma8451q.c`. -/
def CTRL_REG3_IPOL_SHIFT : Nat := 0x1

/-- `#define CTRL_REG3_PPOD_MASK 0x1` from `mma8451q.c`. -/
def CTRL_REG3_PPOD_MASK : Nat := 0x1

/-- `#define CTRL_REG3_PPOD_SHIFT 0x0` from `mma8451q.c`. -/
def CTRL_REG3_PPOD_SHIFT : Nat := 0x0

/-- The local `value` computed by `MMA8451Q_SetDataRate`:
`((datarate << CTRL_REG1_DR_SHIFT) & CTRL_REG1_DR_MASK)
 | ((lownoise << CTRL_REG1_LNOISE_SHIFT) & CTRL_REG1_LNOISE_MASK)`. -/
def MMA8451Q_SetDataRate_value (datarate lownoise : Nat) : Nat :=
  ((datarate <<< CTRL_REG1_DR_SHIFT) &&& CTRL_REG1_DR_MASK) |||
    ((lownoise <<< CTRL_REG1_LNOISE_SHIFT) &&& CTRL_REG1_LNOISE_MASK)

/-- The local `mask` computed by `MMA8451Q_SetDataRate`:
`~(CTRL_REG1_DR_MASK | CTRL_REG1_LNOISE_MASK)` truncated to `uint8_t`
(bitwise complement within 8 bits). -/
def MMA8451Q_SetDataRate_mask : Nat :=
  0xFF ^^^ (CTRL_REG1_DR_MASK ||| CTRL_REG1_LNOISE_MASK)

/-- `MMA8451Q_SetDataRate(datarate, lownoise)`: read-modify-write of
CTRL_REG1 through `I2C_ModifyRegister`. -/
def MMA8451Q_SetDataRate (datarate lownoise : Nat) (regs : Regs) : Regs × List I2CEvent :=
  I2C_ModifyRegister MMA8451Q_I2CADDR MMA8451Q_REG_CTRL_REG1
    MMA8451Q_SetDataRate_mask (MMA8451Q_SetDataRate_value datarate lownoise) regs

/-- The local `value` computed by `MMA8451Q_SetOversampling`:
`(oversampling << CTRL_REG2_MODS_SHIFT) & CTRL_REG2_MODS_MASK`. -/
def MMA8451Q_SetOversampling_value (oversampling : Nat) : Nat :=
  (oversampling <<< CTRL_REG2_MODS_SHIFT) &&& CTRL_REG2_MODS_MASK

/-- The local `mask` computed by `MMA8451Q_SetOversampling`:
`~CTRL_REG2_MODS_MASK` truncated to `uint8_t`. -/
def MMA8451Q_SetOversampling_mask : Nat := 0xFF ^^^ CTRL_REG2_MODS_MASK

/-- `MMA8451Q_SetOversampling(oversampling)`: read-modify-write of
CTRL_REG2 through `I2C_ModifyRegister`. -/
def MMA8451Q_SetOversampling (oversampling : Nat) (regs : Regs) : Regs × List I2CEvent :=
  I2C_ModifyRegister MMA8451Q_I2CADDR MMA8451Q_REG_CTRL_REG2
    MMA8451Q_SetOversampling_mask (MMA8451Q_SetOversampling_value oversampling) regs

/-- `MMA8451Q_SetSensitivity(sensitivity, highpassEnabled)`: a plain
`I2C_WriteRegister` of `(sensitivity & 0x03) | ((highpassEnabled << 4) & 0x10)`
to XYZ_DATA_CFG — a full register overwrite, not a masked modify. -/
def MMA8451Q_SetSensitivity (sensitivity highpassEnabled : Nat) (regs : Regs) :
    Regs × List I2CEvent :=
  I2C_WriteRegister MMA8451Q_I2CADDR MMA8451Q_REG_XZY_DATA_CFG
    ((sensitivity &&& 0x03) ||| ((highpassEnabled <<< 4) &&& 0x10)) regs

/-- The local `value` computed by `MMA8451Q_SetInterruptMode`:
`((mode << CTRL_REG3_PPOD_SHIFT) & CTRL_REG3_PPOD_MASK)
 | ((polarity << CTRL_REG3_IPOL_SHIFT) & CTRL_REG3_IPOL_MASK)`. -/
def MMA8451Q_SetInterruptMode_value (mode polarity : Nat) : Nat :=
  ((mode <<< CTRL_REG3_PPOD_SHIFT) &&& CTRL_REG3_PPOD_MASK) |||
    ((polarity <<< CTRL_REG3_IPOL_SHIFT) &&& CTRL_REG3_IPOL_MASK)

/-- The local `mask` computed by `MMA8451Q_SetInterruptMode`:
`~(CTRL_REG3_IPOL_MASK | CTRL_REG3_PPOD_MASK)` truncated to `uint8_t`. -/
def MMA8451Q_SetInterruptMode_mask : Nat :=
  0xFF ^^^ (CTRL_REG3_IPOL_MASK ||| CTRL_REG3_PPOD_MASK)

/-- `MMA8451Q_SetInterruptMode(mode, polarity)`: read-modify-write of
CTRL_REG3 through `I2C_ModifyRegister`. -/
def MMA8451Q_SetInterruptMode (mode polarity : Nat) (regs : Regs) : Regs × List I2CEvent :=
  I2C_ModifyRegister MMA8451Q_I2CADDR MMA8451Q_REG_CTRL_REG3
    MMA8451Q_SetInterruptMode_mask (MMA8451Q_SetInterruptMode_value mode polarity) regs

/-- The two interrupt output pins of the device (`mma8451q_intpin_t`). -/
inductive mma8451q_intpin where
  | int1
  | int2
deriving DecidableEq, Repr

/-- `MMA8451Q_ConfigureInterrupt(irq, pin)`: first a read-modify-write of
the routing register CTRL_REG5 — with `clearMask = I2C_MOD_NO_AND_MASK`,
`setMask = 1 << irq` for pin 1, reverted to `clearMask = ~(1 << irq)`,
`setMask = I2C_MOD_NO_OR_MASK` for pin 2 — then a read-modify-write of the
enable register CTRL_REG4 ORing in `1 << irq`.  `1 << irq` and its
complement are truncated to `uint8_t` as by the parameter types of
`I2C_ModifyRegister`. -/
def MMA8451Q_ConfigureInterrupt (irq : Nat) (pin : mma8451q_intpin) (regs : Regs) :
    Regs × List I2CEvent :=
  let clearMask :=
    if pin = mma8451q_intpin.int2 then 0xFF ^^^ ((1 <<< irq) % 256) else I2C_MOD_NO_AND_MASK
  let setMask :=
    if pin = mma8451q_intpin.int2 then I2C_MOD_NO_OR_MASK else 1 <<< irq
  let step5 := I2C_ModifyRegister MMA8451Q_I2CADDR MMA8451Q_REG_CTRL_REG5 clearMask setMask regs
  let step4 := I2C_ModifyRegister MMA8451Q_I2CADDR MMA8451Q_REG_CTRL_REG4
    I2C_MOD_NO_AND_MASK (1 <<< irq) step5.1
  (step4.1, step5.2 ++ step4.2)

/-- `MMA8451Q_ClearInterruptConfiguration()`: unconditional
`I2C_WriteRegister` of `0` to CTRL_REG4, then to CTRL_REG5. -/
def MMA8451Q_ClearInterruptConfiguration (regs : Regs) : Regs × List I2CEvent :=
  let step4 := I2C_WriteRegister MMA8451Q_I2CADDR MMA8451Q_REG_CTRL_REG4 0 regs
  let step5 := I2C_WriteRegister MMA8451Q_I2CADDR MMA8451Q_REG_CTRL_REG5 0 step4.1
  (step5.1, step4.2 ++ step5.2)

/-- Modelled from the spec: the configuration aggregate
`mma8451q_confreg_t` (§3, §4.2) — typed fields mirroring the device's
configuration registers.  The header declaring the concrete field list is
not under `src/`; only the fields the claims mention are modelled. -/
structure mma8451q_confreg where
  ctrl_reg1 : Nat
  ctrl_reg2 : Nat
  ctrl_reg3 : Nat
  ctrl_reg4 : Nat
  ctrl_reg5 : Nat
  xyz_data_cfg : Nat
deriving DecidableEq, Repr

/-- `MMA8451Q_FetchConfiguration(configuration)`: the body is
`assert(configuration != 0x0);` and nothing else.  A null pointer is an
assertion failure (`none`); otherwise the call returns with the aggregate
unchanged, having issued no bus transaction. -/
def MMA8451Q_FetchConfiguration (configuration : Option mma8451q_confreg) :
    Option (mma8451q_confreg × List I2CEvent) :=
  match configuration with
  | none => none
  | some c => some (c, [])

/-- `MMA8451Q_StoreConfiguration(configuration)`: the body is
`assert(configuration != 0x0);` and nothing else.  A null pointer is an
assertion failure (`none`); otherwise the call returns, having issued no
bus transaction. -/
def MMA8451Q_StoreConfiguration (configuration : Option mma8451q_confreg) :
    Option (List I2CEvent) :=
  match configuration with
  | none => none
  | some _ => some []

/-- Modelled from the spec: the Endianness Normalizer's 16-bit byte swap
(`ENDIANSWAP_16` from the endian header, not under `src/`): exchange the
low and high byte of a 16-bit word. -/
def ENDIANSWAP_16 (v : Nat) : Nat :=
  ((v &&& 0x00FF) <<< 8) ||| ((v &&& 0xFF00) >>> 8)

/-- How a C `int16_t` struct field reads the two raw buffer bytes
deposited by the burst (wire order: most significant byte first).  On a
host whose native order differs from big-endian (little-endian), the
first buffer byte lands in the low-order position, so the field holds the
byte-swapped word; otherwise it holds the wire word. -/
def storeWord (hostDiffers : Bool) (msb lsb : Nat) : Nat :=
  if hostDiffers then (lsb <<< 8) ||| msb else (msb <<< 8) ||| lsb

/-- Two's-complement interpretation of a 16-bit word as a signed value
(the C `int16_t` holding that bit pattern). -/
def toInt16 (w : Nat) : Int :=
  if w % 65536 < 32768 then ((w % 65536 : Nat) : Int)
  else ((w % 65536 : Nat) : Int) - 65536

/-- Arithmetic (sign-preserving) right shift by 2 on a signed value, the
effect of `>>= 2` on an `int16_t`: floor division by 4. -/
def asr2 (v : Int) : Int := Int.fdiv v 4

/-- `mma8451q_acc_t`: one status byte plus the three decoded signed axis
values. -/
structure mma8451q_acc where
  status : Nat
  x : Int
  y : Int
  z : Int
deriving DecidableEq, Repr

/-- Decoding of one axis as performed by
`MMA8451Q_ReadAcceleration14bitNoFifo`: the struct field reads its two
buffer bytes per host byte order, `ENDIANSWAP_16` is applied if and only
if `endianCorrectionRequired(FROM_BIG_ENDIAN)` holds, then the signed
value is shifted right arithmetically by 2. -/
def decodeAxis (hostDiffers : Bool) (msb lsb : Nat) : Int :=
  let raw := storeWord hostDiffers msb lsb
  let fixed := if hostDiffers then ENDIANSWAP_16 raw else raw
  asr2 (toInt16 fixed)

/-- `MMA8451Q_ReadAcceleration14bitNoFifo(data)`: one
`I2C_ReadRegisters` burst of `registerCount = 7` registers (1 status + 6
data bytes) starting at the STATUS register, then per-axis endianness
correction and 14-bit-to-16-bit layout correction.  `hostDiffers` is the
result of `endianCorrectionRequired(FROM_BIG_ENDIAN)`. -/
def MMA8451Q_ReadAcceleration14bitNoFifo (hostDiffers : Bool) (regs : Regs) :
    mma8451q_acc × List I2CEvent :=
  let burst := I2C_ReadRegisters MMA8451Q_I2CADDR MMA8451Q_REG_STATUS 7 regs
  let b := fun i => burst.1.getD i 0
  ({ status := b 0
     x := decodeAxis hostDiffers (b 1) (b 2)
     y := decodeAxis hostDiffers (b 3) (b 4)
     z := decodeAxis hostDiffers (b 5) (b 6) }, burst.2)

/-! ## Helper lemmas on byte-level bit manipulation -/

/-- Bits at positions 8 and above of a byte value are clear. -/
theorem u8_testBit_high {x : Nat} (h : x < 256) {i : Nat} (hi : 8 ≤ i) :
    x.testBit i = false := by
  apply Nat.testBit_lt_two_pow
  calc x < 256 := h
    _ = 2 ^ 8 := rfl
    _ ≤ 2 ^ i := Nat.pow_le_pow_right (by norm_num) hi

/-- Truncation to a byte keeps exactly the low 8 bits. -/
theorem u8_testBit_mod256 (x i : Nat) :
    (x % 256).testBit i = (decide (i < 8) && x.testBit i) := by
  rw [show (256 : Nat) = 2 ^ 8 from rfl, Nat.testBit_mod_two_pow]

/-- All low 8 bits of `0xFF` are set. -/
theorem testBit_255 {i : Nat} (h : i < 8) : Nat.testBit 255 i = true := by
  rw [show (255 : Nat) = 2 ^ 8 - 1 from rfl, Nat.testBit_two_pow_sub_one]
  simpa using h

/-- A bit of the byte written back by the modify pattern, in terms of the
old register bit, the AND mask bit and the OR value bit. -/
theorem modify_byte_testBit (r m v i : Nat) :
    (((r &&& m) ||| v) % 256).testBit i
      = (decide (i < 8) && ((r.testBit i && m.testBit i) || v.testBit i)) := by
  rw [u8_testBit_mod256, Nat.testBit_or, Nat.testBit_and]

/-- Applying the same AND/OR modify twice gives the same byte as applying
it once. -/
theorem modify_byte_idem (r m v : Nat) :
    ((((r &&& m) ||| v) % 256 &&& m) ||| v) % 256 = ((r &&& m) ||| v) % 256 := by
  apply Nat.eq_of_testBit_eq
  intro i
  simp only [u8_testBit_mod256, Nat.testBit_or, Nat.testBit_and]
  generalize decide (i < 8) = d
  cases d <;> cases r.testBit i <;> cases m.testBit i <;> cases v.testBit i <;> rfl

/-- Frame property of the modify pattern: when the AND mask is the
byte-complement of an owned-bits mask and the OR value is clear at a bit
outside the owned mask, that bit of the written-back byte equals the old
register bit. -/
theorem modify_byte_frame {r v owned : Nat} (hr : r < 256) {i : Nat}
    (hv : v.testBit i = false) (hbit : owned.testBit i = false) :
    (((r &&& ((255 ^^^ owned) % 256)) ||| (v % 256)) % 256).testBit i = r.testBit i := by
  rcases Nat.lt_or_ge i 8 with h8 | h8
  · rw [modify_byte_testBit]
    simp only [u8_testBit_mod256, Nat.testBit_xor, testBit_255 h8, hbit, hv, h8]
    simp
  · rw [modify_byte_testBit, u8_testBit_high hr h8]
    simp [Nat.not_lt.mpr h8]

/-- Combining a byte shifted into the high half with a low byte by OR is
plain positional arithmetic. -/
theorem lor_bytes {b : Nat} (a : Nat) (hb : b < 256) : (a <<< 8) ||| b = 256 * a + b := by
  rw [Nat.shiftLeft_eq, Nat.mul_comm a (2 ^ 8)]
  exact (Nat.mul_add_lt_is_or hb a).symm

/-! ## Theorems for the easy claims -/

/-- C3: `MMA8451Q_FetchConfiguration` is an assertion-only stub: on a
valid (non-null) aggregate it returns with the aggregate unchanged and
performs no bus transaction at all — it does not read the device's
configuration registers, so the aggregate's fields do not reflect the
device's register contents. -/
theorem C3_fetch_configuration_stub :
    (∀ c : mma8451q_confreg, MMA8451Q_FetchConfiguration (some c) = some (c, []))
      ∧ MMA8451Q_FetchConfiguration none = none := by
  exact ⟨fun c => rfl, rfl⟩

/-- C5: for every prior register-file content, clearing the interrupt
configuration leaves CTRL_REG4 and CTRL_REG5 both equal to 0, and does so
by two full-overwrite write transactions (not masked modifies). -/
theorem C5_clear_interrupt_configuration (regs : Regs) :
    (MMA8451Q_ClearInterruptConfiguration regs).1 MMA8451Q_REG_CTRL_REG4 = 0
      ∧ (MMA8451Q_ClearInterruptConfiguration regs).1 MMA8451Q_REG_CTRL_REG5 = 0
      ∧ (MMA8451Q_ClearInterruptConfiguration regs).2
          = [I2CEvent.writeReg MMA8451Q_I2CADDR MMA8451Q_REG_CTRL_REG4 0,
             I2CEvent.writeReg MMA8451Q_I2CADDR MMA8451Q_REG_CTRL_REG5 0] := by
  refine ⟨?_, ?_, rfl⟩ <;>
    simp [MMA8451Q_ClearInterruptConfiguration, I2C_WriteRegister,
      MMA8451Q_REG_CTRL_REG4, MMA8451Q_REG_CTRL_REG5]

/-- C6: the 14-bit no-FIFO acceleration read issues exactly one bus
transaction, a burst read of 7 consecutive registers (the status register
plus the six axis data bytes) starting at the status register — never
separate single-register reads. -/
theorem C6_read_acceleration_single_burst (hostDiffers : Bool) (regs : Regs) :
    (MMA8451Q_ReadAcceleration14bitNoFifo hostDiffers regs).2
      = [I2CEvent.readBurst MMA8451Q_I2CADDR MMA8451Q_REG_STATUS 7] := rfl

/-- C8: passing a null aggregate to `MMA8451Q_FetchConfiguration` or
`MMA8451Q_StoreConfiguration` triggers the assertion (modelled as `none`);
with a non-null aggregate the assertion branch is unreachable and the call
returns normally. -/
theorem C8_null_aggregate_assertion :
    MMA8451Q_FetchConfiguration none = none
      ∧ MMA8451Q_StoreConfiguration none = none
      ∧ (∀ c : mma8451q_confreg, (MMA8451Q_FetchConfiguration (some c)).isSome = true)
      ∧ (∀ c : mma8451q_confreg, (MMA8451Q_StoreConfiguration (some c)).isSome = true) :=
  ⟨rfl, rfl, fun _ => rfl, fun _ => rfl⟩

/-! ## Further helper lemmas -/

/-- The modify primitive at its target register. -/
theorem modifyRegister_at (dev reg am om : Nat) (regs : Regs) :
    (I2C_ModifyRegister dev reg am om regs).1 reg
      = ((regs reg &&& (am % 256)) ||| (om % 256)) % 256 := by
  simp [I2C_ModifyRegister]

/-- A value whose set bits all lie inside an owned byte mask is disjoint
from the byte-complement of that mask. -/
theorem value_and_compl_zero {v owned : Nat} (howned : owned < 256)
    (h : ∀ i, v.testBit i = true → owned.testBit i = true) :
    v &&& (255 ^^^ owned) = 0 := by
  apply Nat.eq_of_testBit_eq
  intro i
  simp only [Nat.testBit_and, Nat.testBit_xor, Nat.zero_testBit]
  rcases Nat.lt_or_ge i 8 with h8 | h8
  · rw [testBit_255 h8]
    cases hv : v.testBit i
    · simp
    · simp [h i hv]
  · rw [u8_testBit_high howned h8, u8_testBit_high (by norm_num : (255 : Nat) < 256) h8]
    simp

/-- Every set bit of the data-rate/low-noise value lies inside the
DR | LNOISE mask. -/
theorem setDataRate_value_subset (datarate lownoise i : Nat)
    (h : (MMA8451Q_SetDataRate_value datarate lownoise).testBit i = true) :
    (CTRL_REG1_DR_MASK ||| CTRL_REG1_LNOISE_MASK).testBit i = true := by
  rw [Nat.testBit_or]
  simp only [MMA8451Q_SetDataRate_value, Nat.testBit_or, Nat.testBit_and] at h
  cases h56 : CTRL_REG1_DR_MASK.testBit i <;>
    cases h4 : CTRL_REG1_LNOISE_MASK.testBit i <;> simp_all

/-- Every set bit of the oversampling value lies inside the MODS mask. -/
theorem setOversampling_value_subset (oversampling i : Nat)
    (h : (MMA8451Q_SetOversampling_value oversampling).testBit i = true) :
    CTRL_REG2_MODS_MASK.testBit i = true := by
  simp only [MMA8451Q_SetOversampling_value, Nat.testBit_and] at h
  cases hm : CTRL_REG2_MODS_MASK.testBit i <;> simp_all

/-- Every set bit of the interrupt-mode value lies inside the
IPOL | PPOD mask. -/
theorem setInterruptMode_value_subset (mode polarity i : Nat)
    (h : (MMA8451Q_SetInterruptMode_value mode polarity).testBit i = true) :
    (CTRL_REG3_IPOL_MASK ||| CTRL_REG3_PPOD_MASK).testBit i = true := by
  rw [Nat.testBit_or]
  simp only [MMA8451Q_SetInterruptMode_value, Nat.testBit_or, Nat.testBit_and] at h
  cases h1 : CTRL_REG3_PPOD_MASK.testBit i <;>
    cases h2 : CTRL_REG3_IPOL_MASK.testBit i <;> simp_all

/-- A value contained in an owned mask is clear wherever the mask is. -/
theorem subset_bit_false {v owned i : Nat}
    (hsub : ∀ j, v.testBit j = true → owned.testBit j = true)
    (hbit : owned.testBit i = false) : v.testBit i = false := by
  cases hv : v.testBit i
  · rfl
  · rw [hsub i hv] at hbit
    exact Bool.noConfusion hbit

/-- A single interrupt-source bit fits in a byte. -/
theorem two_pow_lt_256 {irq : Nat} (h : irq < 8) : 2 ^ irq < 256 := by
  calc 2 ^ irq < 2 ^ 8 := Nat.pow_lt_pow_right (by norm_num) h
    _ = 256 := rfl

/-- Routing register content after configuring a source for pin 1:
identity AND mask, source bit ORed in. -/
theorem configInt1_reg5 (irq : Nat) (regs : Regs) :
    (MMA8451Q_ConfigureInterrupt irq mma8451q_intpin.int1 regs).1 MMA8451Q_REG_CTRL_REG5
      = ((regs MMA8451Q_REG_CTRL_REG5 &&& (255 % 256)) ||| ((1 <<< irq) % 256)) % 256 := by
  simp [MMA8451Q_ConfigureInterrupt, I2C_ModifyRegister, I2C_MOD_NO_AND_MASK,
    I2C_MOD_NO_OR_MASK, MMA8451Q_REG_CTRL_REG4, MMA8451Q_REG_CTRL_REG5]

/-- Routing register content after configuring a source for pin 2:
source bit cleared by the AND mask, nothing ORed in. -/
theorem configInt2_reg5 (irq : Nat) (regs : Regs) :
    (MMA8451Q_ConfigureInterrupt irq mma8451q_intpin.int2 regs).1 MMA8451Q_REG_CTRL_REG5
      = ((regs MMA8451Q_REG_CTRL_REG5 &&& ((255 ^^^ ((1 <<< irq) % 256)) % 256))
          ||| (0 % 256)) % 256 := by
  simp [MMA8451Q_ConfigureInterrupt, I2C_ModifyRegister, I2C_MOD_NO_AND_MASK,
    I2C_MOD_NO_OR_MASK, MMA8451Q_REG_CTRL_REG4, MMA8451Q_REG_CTRL_REG5]

/-- Repeating the same modify of one register changes nothing, at every
register address. -/
theorem modifyRegister_idem (dev reg am om : Nat) (regs : Regs) (a : Nat) :
    (I2C_ModifyRegister dev reg am om (I2C_ModifyRegister dev reg am om regs).1).1 a
      = (I2C_ModifyRegister dev reg am om regs).1 a := by
  by_cases ha : a = reg
  · subst ha
    simp only [I2C_ModifyRegister, if_pos rfl]
    exact modify_byte_idem _ _ _
  · simp [I2C_ModifyRegister, ha]

/-- Repeating the same single-register write changes nothing. -/
theorem writeRegister_idem (dev reg v : Nat) (regs : Regs) (a : Nat) :
    (I2C_WriteRegister dev reg v (I2C_WriteRegister dev reg v regs).1).1 a
      = (I2C_WriteRegister dev reg v regs).1 a := by
  by_cases ha : a = reg <;> simp [I2C_WriteRegister, ha]

/-- Repeating a pair of modifies of two distinct registers changes
nothing. -/
theorem modify_modify_idem (dev r5 r4 am5 om5 am4 om4 : Nat) (h45 : r4 ≠ r5)
    (regs : Regs) (a : Nat) :
    (I2C_ModifyRegister dev r4 am4 om4
      (I2C_ModifyRegister dev r5 am5 om5
        (I2C_ModifyRegister dev r4 am4 om4
          (I2C_ModifyRegister dev r5 am5 om5 regs).1).1).1).1 a
      = (I2C_ModifyRegister dev r4 am4 om4 (I2C_ModifyRegister dev r5 am5 om5 regs).1).1 a := by
  by_cases h4 : a = r4
  · subst h4
    simp only [I2C_ModifyRegister, if_pos rfl, if_neg h45, if_neg (Ne.symm h45)]
    exact modify_byte_idem _ _ _
  · by_cases h5 : a = r5
    · subst h5
      simp only [I2C_ModifyRegister, if_pos rfl, if_neg h45, if_neg (Ne.symm h45), if_neg h4]
      exact modify_byte_idem _ _ _
    · simp [I2C_ModifyRegister, h4, h5]

/-- Configuring the same interrupt twice with the same arguments is the
same as configuring it once. -/
theorem configureInterrupt_idem (irq : Nat) (pin : mma8451q_intpin) (regs : Regs) (a : Nat) :
    (MMA8451Q_ConfigureInterrupt irq pin (MMA8451Q_ConfigureInterrupt irq pin regs).1).1 a
      = (MMA8451Q_ConfigureInterrupt irq pin regs).1 a := by
  cases pin <;> exact modify_modify_idem _ _ _ _ _ _ _ (by decide) regs a

/-- Clearing the interrupt configuration twice is the same as clearing it
once. -/
theorem clearInterrupt_idem (regs : Regs) (a : Nat) :
    (MMA8451Q_ClearInterruptConfiguration
        (MMA8451Q_ClearInterruptConfiguration regs).1).1 a
      = (MMA8451Q_ClearInterruptConfiguration regs).1 a := by
  by_cases h5 : a = MMA8451Q_REG_CTRL_REG5 <;> by_cases h4 : a = MMA8451Q_REG_CTRL_REG4 <;>
    simp_all [MMA8451Q_ClearInterruptConfiguration, I2C_WriteRegister,
      MMA8451Q_REG_CTRL_REG4, MMA8451Q_REG_CTRL_REG5]

/-- Masking a word with `0xFF` keeps its low byte. -/
theorem and_255_eq_mod (x : Nat) : x &&& 255 = x % 256 := by
  rw [show (255 : Nat) = 2 ^ 8 - 1 from rfl, Nat.and_pow_two_sub_one_eq_mod]

/-- Masking with `0xFF00` and shifting right by 8 extracts the second
byte. -/
theorem and_ff00_shr8 (w : Nat) : (w &&& 65280) >>> 8 = (w >>> 8) &&& 255 := by
  apply Nat.eq_of_testBit_eq
  intro i
  simp only [Nat.testBit_shiftRight, Nat.testBit_and]
  rw [show (65280 : Nat) = 255 <<< 8 from by decide, Nat.testBit_shiftLeft]
  have h2 : (8 : Nat) ≤ 8 + i := Nat.le_add_right 8 i
  simp [h2]

/-- The byte swap applied to the word that stores `lsb` in its high byte
and `msb` in its low byte yields the big-endian word. -/
theorem endianswap_bytes {msb lsb : Nat} (hmsb : msb < 256) (hlsb : lsb < 256) :
    ENDIANSWAP_16 ((lsb <<< 8) ||| msb) = 256 * msb + lsb := by
  rw [lor_bytes lsb hmsb]
  unfold ENDIANSWAP_16
  rw [show (0x00FF : Nat) = 255 from rfl, show (0xFF00 : Nat) = 65280 from rfl,
    and_255_eq_mod, and_ff00_shr8, and_255_eq_mod, Nat.shiftRight_eq_div_pow]
  have e1 : (256 * lsb + msb) % 256 = msb := by omega
  have e2 : (256 * lsb + msb) / 2 ^ 8 % 256 = lsb := by
    rw [show (2 : Nat) ^ 8 = 256 from rfl]
    omega
  rw [e1, e2, lor_bytes msb hlsb]

/-- On both host byte orders, axis decoding acts on the big-endian wire
word: the conditional swap exactly compensates the storage order. -/
theorem decodeAxis_wire (hostDiffers : Bool) {msb lsb : Nat}
    (hmsb : msb < 256) (hlsb : lsb < 256) :
    decodeAxis hostDiffers msb lsb = asr2 (toInt16 (256 * msb + lsb)) := by
  cases hostDiffers
  · unfold decodeAxis storeWord
    simp only [Bool.false_eq_true, if_false]
    rw [lor_bytes msb hlsb]
  · unfold decodeAxis storeWord
    simp only [if_true]
    rw [endianswap_bytes hmsb hlsb]

/-- The x field produced by the burst decode, in terms of the device's
raw bytes at registers 1 and 2. -/
theorem readAccel_x (hostDiffers : Bool) (regs : Regs) :
    (MMA8451Q_ReadAcceleration14bitNoFifo hostDiffers regs).1.x
      = decodeAxis hostDiffers (regs 1 % 256) (regs 2 % 256) := rfl

/-- The y field produced by the burst decode, in terms of the device's
raw bytes at registers 3 and 4. -/
theorem readAccel_y (hostDiffers : Bool) (regs : Regs) :
    (MMA8451Q_ReadAcceleration14bitNoFifo hostDiffers regs).1.y
      = decodeAxis hostDiffers (regs 3 % 256) (regs 4 % 256) := rfl

/-- The z field produced by the burst decode, in terms of the device's
raw bytes at registers 5 and 6. -/
theorem readAccel_z (hostDiffers : Bool) (regs : Regs) :
    (MMA8451Q_ReadAcceleration14bitNoFifo hostDiffers regs).1.z
      = decodeAxis hostDiffers (regs 5 % 256) (regs 6 % 256) := rfl

/-- A two's-complement 16-bit value lies in the signed 16-bit range. -/
theorem toInt16_bounds (w : Nat) : -32768 ≤ toInt16 w ∧ toInt16 w ≤ 32767 := by
  have h : w % 65536 < 65536 := Nat.mod_lt w (by norm_num)
  unfold toInt16
  split <;> constructor <;> omega

/-- The arithmetic 2-bit right shift of a signed 16-bit value lies in the
signed 14-bit range. -/
theorem asr2_toInt16_bounds (w : Nat) :
    -8192 ≤ asr2 (toInt16 w) ∧ asr2 (toInt16 w) ≤ 8191 := by
  have h := toInt16_bounds w
  unfold asr2
  rw [Int.fdiv_eq_ediv _ (by norm_num)]
  constructor <;> omega

/-- Every decoded axis value lies in the signed 14-bit range. -/
theorem decodeAxis_bounds (hostDiffers : Bool) (msb lsb : Nat) :
    -8192 ≤ decodeAxis hostDiffers msb lsb ∧ decodeAxis hostDiffers msb lsb ≤ 8191 := by
  unfold decodeAxis
  exact asr2_toInt16_bounds _

/-! ## Theorems for the remaining claims -/

/-- C1 (counterexample): the claim fails for set sensitivity / high-pass:
with XYZ_DATA_CFG previously `0x08` (bit 3 set, outside the operation's
`0x13` field), `MMA8451Q_SetSensitivity(0, 0)` clears bit 3, because it
overwrites the whole register instead of modifying it under a mask. -/
theorem C1_counterexample :
    ((MMA8451Q_SetSensitivity 0 0 (fun _ => 8)).1 MMA8451Q_REG_XZY_DATA_CFG).testBit 3
      ≠ Nat.testBit 8 3 := by decide

/-- C1 (amended): the read-modify-write bit-field operations — set data
rate / low-noise (mask DR | LNOISE on CTRL_REG1), set oversampling (mask
MODS on CTRL_REG2), set interrupt mode / polarity (mask IPOL | PPOD on
CTRL_REG3) — leave every bit of their target register outside the
declared mask bit-for-bit unchanged, for every pre-existing byte value
and all argument values; set sensitivity / high-pass instead performs a
full overwrite of XYZ_DATA_CFG, writing the computed field value
regardless of the register's prior content. -/
theorem C1_bitfield_frame
    (datarate lownoise oversampling mode polarity sensitivity highpass i : Nat)
    (regs : Regs)
    (h1 : regs MMA8451Q_REG_CTRL_REG1 < 256)
    (h2 : regs MMA8451Q_REG_CTRL_REG2 < 256)
    (h3 : regs MMA8451Q_REG_CTRL_REG3 < 256) :
    ((CTRL_REG1_DR_MASK ||| CTRL_REG1_LNOISE_MASK).testBit i = false →
      ((MMA8451Q_SetDataRate datarate lownoise regs).1 MMA8451Q_REG_CTRL_REG1).testBit i
        = (regs MMA8451Q_REG_CTRL_REG1).testBit i)
    ∧ (CTRL_REG2_MODS_MASK.testBit i = false →
      ((MMA8451Q_SetOversampling oversampling regs).1 MMA8451Q_REG_CTRL_REG2).testBit i
        = (regs MMA8451Q_REG_CTRL_REG2).testBit i)
    ∧ ((CTRL_REG3_IPOL_MASK ||| CTRL_REG3_PPOD_MASK).testBit i = false →
      ((MMA8451Q_SetInterruptMode mode polarity regs).1 MMA8451Q_REG_CTRL_REG3).testBit i
        = (regs MMA8451Q_REG_CTRL_REG3).testBit i)
    ∧ (MMA8451Q_SetSensitivity sensitivity highpass regs).1 MMA8451Q_REG_XZY_DATA_CFG
        = (sensitivity &&& 0x03) ||| ((highpass <<< 4) &&& 0x10) := by
  refine ⟨?_, ?_, ?_, ?_⟩
  · intro hbit
    rw [MMA8451Q_SetDataRate, modifyRegister_at]
    exact modify_byte_frame h1
      (subset_bit_false (setDataRate_value_subset datarate lownoise) hbit) hbit
  · intro hbit
    rw [MMA8451Q_SetOversampling, modifyRegister_at]
    exact modify_byte_frame h2
      (subset_bit_false (setOversampling_value_subset oversampling) hbit) hbit
  · intro hbit
    rw [MMA8451Q_SetInterruptMode, modifyRegister_at]
    exact modify_byte_frame h3
      (subset_bit_false (setInterruptMode_value_subset mode polarity) hbit) hbit
  · have hlt : (sensitivity &&& 3) ||| ((highpass <<< 4) &&& 16) < 256 := by
      have hA : sensitivity &&& 3 < 256 :=
        Nat.lt_of_le_of_lt Nat.and_le_right (by norm_num)
      have hB : (highpass <<< 4) &&& 16 < 256 :=
        Nat.lt_of_le_of_lt Nat.and_le_right (by norm_num)
      exact @Nat.or_lt_two_pow _ _ 8 hA hB
    simp [MMA8451Q_SetSensitivity, I2C_WriteRegister, Nat.mod_eq_of_lt hlt]

/-- Witness for C1: the amended frame property at concrete inputs
(arguments 1, register file all zero, bit 7). -/
theorem C1_bitfield_frame_witness :
    ((0 : Nat) < 256 ∧ (0 : Nat) < 256 ∧ (0 : Nat) < 256)
    ∧ (((CTRL_REG1_DR_MASK ||| CTRL_REG1_LNOISE_MASK).testBit 7 = false →
        ((MMA8451Q_SetDataRate 1 1 (fun _ => 0)).1 MMA8451Q_REG_CTRL_REG1).testBit 7
          = Nat.testBit 0 7)
      ∧ (CTRL_REG2_MODS_MASK.testBit 7 = false →
        ((MMA8451Q_SetOversampling 1 (fun _ => 0)).1 MMA8451Q_REG_CTRL_REG2).testBit 7
          = Nat.testBit 0 7)
      ∧ ((CTRL_REG3_IPOL_MASK ||| CTRL_REG3_PPOD_MASK).testBit 7 = false →
        ((MMA8451Q_SetInterruptMode 1 1 (fun _ => 0)).1 MMA8451Q_REG_CTRL_REG3).testBit 7
          = Nat.testBit 0 7)
      ∧ (MMA8451Q_SetSensitivity 1 1 (fun _ => 0)).1 MMA8451Q_REG_XZY_DATA_CFG
          = (1 &&& 0x03) ||| ((1 <<< 4) &&& 0x10)) :=
  ⟨⟨by decide, by decide, by decide⟩,
   C1_bitfield_frame 1 1 1 1 1 1 1 7 (fun _ => 0) (by decide) (by decide) (by decide)⟩

/-- C2 (counterexample): the claim fails on the routing polarity.
Configuring source 0 for pin 1 on an all-zero register file leaves bit 0
of CTRL_REG5 *set*, not clear: the code ORs `1 << irq` into CTRL_REG5 in
the pin-1 branch. -/
theorem C2_counterexample :
    ¬ (((MMA8451Q_ConfigureInterrupt 0 mma8451q_intpin.int1 (fun _ => 0)).1
        MMA8451Q_REG_CTRL_REG5).testBit 0 = false) := by decide

/-- C2 (amended): for every interrupt source `irq < 8`, configuring the
source for pin 1 leaves bit `irq` of the routing register CTRL_REG5
*set*, configuring it for pin 2 leaves bit `irq` *clear*, and in both
cases every other bit of CTRL_REG5 is unchanged. -/
theorem C2_interrupt_routing (irq j : Nat) (regs : Regs)
    (hirq : irq < 8) (hr : regs MMA8451Q_REG_CTRL_REG5 < 256) (hj : j ≠ irq) :
    ((MMA8451Q_ConfigureInterrupt irq mma8451q_intpin.int1 regs).1
        MMA8451Q_REG_CTRL_REG5).testBit irq = true
    ∧ ((MMA8451Q_ConfigureInterrupt irq mma8451q_intpin.int2 regs).1
        MMA8451Q_REG_CTRL_REG5).testBit irq = false
    ∧ ((MMA8451Q_ConfigureInterrupt irq mma8451q_intpin.int1 regs).1
        MMA8451Q_REG_CTRL_REG5).testBit j = (regs MMA8451Q_REG_CTRL_REG5).testBit j
    ∧ ((MMA8451Q_ConfigureInterrupt irq mma8451q_intpin.int2 regs).1
        MMA8451Q_REG_CTRL_REG5).testBit j = (regs MMA8451Q_REG_CTRL_REG5).testBit j := by
  have hpow : (1 <<< irq) % 256 = 2 ^ irq := by
    rw [Nat.one_shiftLeft, Nat.mod_eq_of_lt (two_pow_lt_256 hirq)]
  refine ⟨?_, ?_, ?_, ?_⟩
  · rw [configInt1_reg5, hpow, modify_byte_testBit]
    simp [hirq, testBit_255 hirq, Nat.testBit_two_pow_self]
  · rw [configInt2_reg5, hpow, modify_byte_testBit]
    simp only [u8_testBit_mod256, Nat.testBit_xor, testBit_255 hirq,
      Nat.testBit_two_pow_self, Nat.zero_testBit, hirq]
    simp
  · rw [configInt1_reg5, hpow]
    rw [show ((255 : Nat) % 256) = (255 ^^^ 0) % 256 from by decide,
      show ((2 : Nat) ^ irq) = 2 ^ irq % 256 from (Nat.mod_eq_of_lt (two_pow_lt_256 hirq)).symm]
    exact modify_byte_frame hr (Nat.testBit_two_pow_of_ne (Ne.symm hj)) (Nat.zero_testBit j)
  · rw [configInt2_reg5, hpow]
    exact modify_byte_frame hr (Nat.zero_testBit j) (Nat.testBit_two_pow_of_ne (Ne.symm hj))

/-- Witness for C2: the amended routing property for source 2 with prior
CTRL_REG5 content `0xAA`, observing bit 5. -/
theorem C2_interrupt_routing_witness :
    ((2 : Nat) < 8 ∧ (170 : Nat) < 256 ∧ (5 : Nat) ≠ 2)
    ∧ (((MMA8451Q_ConfigureInterrupt 2 mma8451q_intpin.int1 (fun _ => 170)).1
          MMA8451Q_REG_CTRL_REG5).testBit 2 = true
      ∧ ((MMA8451Q_ConfigureInterrupt 2 mma8451q_intpin.int2 (fun _ => 170)).1
          MMA8451Q_REG_CTRL_REG5).testBit 2 = false
      ∧ ((MMA8451Q_ConfigureInterrupt 2 mma8451q_intpin.int1 (fun _ => 170)).1
          MMA8451Q_REG_CTRL_REG5).testBit 5 = Nat.testBit 170 5
      ∧ ((MMA8451Q_ConfigureInterrupt 2 mma8451q_intpin.int2 (fun _ => 170)).1
          MMA8451Q_REG_CTRL_REG5).testBit 5 = Nat.testBit 170 5) :=
  ⟨⟨by decide, by decide, by decide⟩,
   C2_interrupt_routing 2 5 (fun _ => 170) (by decide) (by decide) (by decide)⟩

/-- C4: the acceleration decoder reads each axis word from the burst
bytes, byte-swaps it exactly when the host's native order differs from
the big-endian wire convention (so on either host order the decode acts
on the big-endian wire word `256 * msb + lsb`), then shifts the signed
value right arithmetically by 2; on a host with differing order, the raw
big-endian sample X=0x1234, Y=0xFFF0, Z=0x0004 decodes to X=0x048D,
Y=-4 (bit pattern 0xFFFC, sign-extended) and Z=0x0001. -/
theorem C4_acceleration_decode (hostDiffers : Bool) (msb lsb : Nat) (regs : Regs)
    (hmsb : msb < 256) (hlsb : lsb < 256) :
    decodeAxis hostDiffers msb lsb = asr2 (toInt16 (256 * msb + lsb))
    ∧ (MMA8451Q_ReadAcceleration14bitNoFifo hostDiffers regs).1.x
        = decodeAxis hostDiffers (regs 1 % 256) (regs 2 % 256)
    ∧ (MMA8451Q_ReadAcceleration14bitNoFifo hostDiffers regs).1.y
        = decodeAxis hostDiffers (regs 3 % 256) (regs 4 % 256)
    ∧ (MMA8451Q_ReadAcceleration14bitNoFifo hostDiffers regs).1.z
        = decodeAxis hostDiffers (regs 5 % 256) (regs 6 % 256)
    ∧ decodeAxis true 0x12 0x34 = 0x048D
    ∧ decodeAxis true 0xFF 0xF0 = -4
    ∧ decodeAxis true 0xFF 0xF0 % 65536 = 0xFFFC
    ∧ decodeAxis true 0x00 0x04 = 1 := by
  refine ⟨decodeAxis_wire hostDiffers hmsb hlsb, readAccel_x hostDiffers regs,
    readAccel_y hostDiffers regs, readAccel_z hostDiffers regs,
    by decide, by decide, by decide, by decide⟩

/-- Witness for C4: the decode properties at host-order-differs with the
specified test vector's X axis bytes and an all-zero register file. -/
theorem C4_acceleration_decode_witness :
    ((0x12 : Nat) < 256 ∧ (0x34 : Nat) < 256)
    ∧ (decodeAxis true 0x12 0x34 = asr2 (toInt16 (256 * 0x12 + 0x34))
      ∧ (MMA8451Q_ReadAcceleration14bitNoFifo true (fun _ => 0)).1.x
          = decodeAxis true (0 % 256) (0 % 256)
      ∧ (MMA8451Q_ReadAcceleration14bitNoFifo true (fun _ => 0)).1.y
          = decodeAxis true (0 % 256) (0 % 256)
      ∧ (MMA8451Q_ReadAcceleration14bitNoFifo true (fun _ => 0)).1.z
          = decodeAxis true (0 % 256) (0 % 256)
      ∧ decodeAxis true 0x12 0x34 = 0x048D
      ∧ decodeAxis true 0xFF 0xF0 = -4
      ∧ decodeAxis true 0xFF 0xF0 % 65536 = 0xFFFC
      ∧ decodeAxis true 0x00 0x04 = 1) :=
  ⟨⟨by decide, by decide⟩,
   C4_acceleration_decode true 0x12 0x34 (fun _ => 0) (by decide) (by decide)⟩

/-- C7: every bit-field operation of the driver is idempotent — invoking
it a second time with the same arguments leaves the whole register file
exactly as after the first invocation, for every prior register state and
all argument values. -/
theorem C7_bitfield_idempotent
    (datarate lownoise oversampling mode polarity sensitivity highpass irq : Nat)
    (pin : mma8451q_intpin) (regs : Regs) (a : Nat) :
    (MMA8451Q_SetDataRate datarate lownoise
        (MMA8451Q_SetDataRate datarate lownoise regs).1).1 a
      = (MMA8451Q_SetDataRate datarate lownoise regs).1 a
    ∧ (MMA8451Q_SetOversampling oversampling
        (MMA8451Q_SetOversampling oversampling regs).1).1 a
      = (MMA8451Q_SetOversampling oversampling regs).1 a
    ∧ (MMA8451Q_SetSensitivity sensitivity highpass
        (MMA8451Q_SetSensitivity sensitivity highpass regs).1).1 a
      = (MMA8451Q_SetSensitivity sensitivity highpass regs).1 a
    ∧ (MMA8451Q_SetInterruptMode mode polarity
        (MMA8451Q_SetInterruptMode mode polarity regs).1).1 a
      = (MMA8451Q_SetInterruptMode mode polarity regs).1 a
    ∧ (MMA8451Q_ConfigureInterrupt irq pin
        (MMA8451Q_ConfigureInterrupt irq pin regs).1).1 a
      = (MMA8451Q_ConfigureInterrupt irq pin regs).1 a
    ∧ (MMA8451Q_ClearInterruptConfiguration
        (MMA8451Q_ClearInterruptConfiguration regs).1).1 a
      = (MMA8451Q_ClearInterruptConfiguration regs).1 a := by
  refine ⟨?_, ?_, ?_, ?_, ?_, ?_⟩
  · exact modifyRegister_idem _ _ _ _ regs a
  · exact modifyRegister_idem _ _ _ _ regs a
  · exact writeRegister_idem _ _ _ regs a
  · exact modifyRegister_idem _ _ _ _ regs a
  · exact configureInterrupt_idem irq pin regs a
  · exact clearInterrupt_idem regs a

/-- C9: for all argument values, including values outside the intended
enum ranges, the OR value computed by each read-modify-write bit-field
operation has set bits only inside the operation's owned field: ANDing it
with the operation's AND mask (the byte-complement of the owned mask)
gives zero, so the operation can never set a bit it does not own. -/
theorem C9_rmw_value_within_mask (datarate lownoise oversampling mode polarity : Nat) :
    MMA8451Q_SetDataRate_value datarate lownoise &&& MMA8451Q_SetDataRate_mask = 0
      ∧ MMA8451Q_SetOversampling_value oversampling &&& MMA8451Q_SetOversampling_mask = 0
      ∧ MMA8451Q_SetInterruptMode_value mode polarity &&& MMA8451Q_SetInterruptMode_mask = 0 := by
  refine ⟨?_, ?_, ?_⟩
  · exact value_and_compl_zero (by decide) (setDataRate_value_subset datarate lownoise)
  · exact value_and_compl_zero (by decide) (setOversampling_value_subset oversampling)
  · exact value_and_compl_zero (by decide) (setInterruptMode_value_subset mode polarity)

/-- C10: for every raw sample delivered by the burst read (and either
host byte order), each decoded axis value lies in the closed interval
[-8192, 8191], being a signed 16-bit word arithmetically shifted right by
2 bits. -/
theorem C10_axis_range (hostDiffers : Bool) (regs : Regs) :
    (-8192 ≤ (MMA8451Q_ReadAcceleration14bitNoFifo hostDiffers regs).1.x
      ∧ (MMA8451Q_ReadAcceleration14bitNoFifo hostDiffers regs).1.x ≤ 8191)
    ∧ (-8192 ≤ (MMA8451Q_ReadAcceleration14bitNoFifo hostDiffers regs).1.y
      ∧ (MMA8451Q_ReadAcceleration14bitNoFifo hostDiffers regs).1.y ≤ 8191)
    ∧ (-8192 ≤ (MMA8451Q_ReadAcceleration14bitNoFifo hostDiffers regs).1.z
      ∧ (MMA8451Q_ReadAcceleration14bitNoFifo hostDiffers regs).1.z ≤ 8191) := by
  rw [readAccel_x, readAccel_y, readAccel_z]
  exact ⟨decodeAxis_bounds _ _ _, decodeAxis_bounds _ _ _, decodeAxis_bounds _ _ _⟩
